import Mathlib

/-!
Shallow embedding of the sales-manager core (record manager and analysis
engine) and verification of its specification claims.

Records (`Venda`) carry an id, product name, unit price, quantity, a
timestamp and optional notes.  Prices are modelled as rationals, timestamps
as naturals.  The persistence layer (an external SQLAlchemy store in the
source) is modelled as an in-memory list with an auto-incremented id
counter, per the spec's Record Store contract.
-/

namespace GestorVendas

/-- A sale record, mirroring the `Venda` ORM model
(`src/models/venda.py`): id, product name, unit price, quantity,
sale timestamp, optional notes. -/
structure Venda where
  id : Int
  nome : String
  preco : ℚ
  quantidade : Int
  data_venda : Nat
  observacoes : Option String
deriving DecidableEq

/-- Revenue of one record, price times quantity
(`Venda.calcular_faturamento`). -/
def Venda.calcular_faturamento (v : Venda) : ℚ :=
  v.preco * v.quantidade

/-- Python's `str.strip()`: remove leading and trailing whitespace
characters. -/
def strip (s : String) : String :=
  String.mk (((s.data.dropWhile Char.isWhitespace).reverse.dropWhile
    Char.isWhitespace).reverse)

/-- Modelled from the spec: the Record Store (an external SQLAlchemy
database in the source, `src/models/database.py`) as an in-memory list of
records plus the next auto-increment id. -/
structure Store where
  vendas : List Venda
  proximo_id : Int
deriving DecidableEq

/-- An empty store whose first assigned id is 1. -/
def Store.vazio : Store := ⟨[], 1⟩

/-- Lookup of the first record whose id matches, if any
(`Venda.buscar_por_id`:
`session.query(cls).filter(cls.id == venda_id).first()`). -/
def Venda.buscar_por_id (s : Store) (venda_id : Int) : Option Venda :=
  s.vendas.find? (fun v => decide (v.id = venda_id))

/-- Creation at the store level (`Venda.criar_venda`): build the record,
assign the next id and the current timestamp, append it to the store
(`session.add` followed by `commit`). -/
def Venda.criarVenda (s : Store) (nome : String) (preco : ℚ)
    (quantidade : Int) (observacoes : Option String) (agora : Nat) :
    Venda × Store :=
  let venda : Venda :=
    ⟨s.proximo_id, nome, preco, quantidade, agora, observacoes⟩
  (venda, ⟨s.vendas ++ [venda], s.proximo_id + 1⟩)

/-- In-place mutation of a record (`Venda.atualizar`): each field is
overwritten only when a replacement is supplied. -/
def Venda.atualizar (v : Venda) (nome : Option String) (preco : Option ℚ)
    (quantidade : Option Int) (observacoes : Option String) : Venda :=
  { v with
    nome := nome.getD v.nome
    preco := preco.getD v.preco
    quantidade := quantidade.getD v.quantidade
    observacoes := match observacoes with
      | none => v.observacoes
      | some o => some o }

/-- Commit of a mutated record: every stored record carrying the mutated
id is replaced by the new value. -/
def Store.substitui (s : Store) (venda_id : Int) (nova : Venda) : Store :=
  ⟨s.vendas.map (fun w => if w.id = venda_id then nova else w), s.proximo_id⟩

/-- Python truthiness coercion `x.strip() if x else None` applied to an
optional string: `None` and the empty string both become `None`, anything
else is stripped. -/
def stripOpcional : Option String → Option String
  | none => none
  | some o => if o = "" then none else some (strip o)

namespace VendaService

/-- Validated creation (`VendaService.criar_venda` in
`src/services/venda_service.py`): four guard clauses in source order,
then delegation to the store.  Returns the raised error message or the
created record, together with the resulting store. -/
def criar_venda (s : Store) (nome : String) (preco : ℚ) (quantidade : Int)
    (observacoes : Option String) (agora : Nat) :
    Except String Venda × Store :=
  if nome = "" ∨ strip nome = "" then
    (.error "Nome do produto é obrigatório", s)
  else if preco ≤ 0 then
    (.error "Preço deve ser maior que zero", s)
  else if quantidade ≤ 0 then
    (.error "Quantidade deve ser maior que zero", s)
  else if nome.length > 100 then
    (.error "Nome do produto deve ter no máximo 100 caracteres", s)
  else
    let resultado := Venda.criarVenda s (strip nome) preco quantidade
      (stripOpcional observacoes) agora
    (.ok resultado.1, resultado.2)

/-- Read of a single record (`VendaService.buscar_venda`): forwards a
successful store read and catches `SQLAlchemyError`, returning `None`
instead of re-raising. -/
def buscar_venda (resultado : Except String (Option Venda)) :
    Except String (Option Venda) :=
  match resultado with
  | .ok v => .ok v
  | .error _ => .ok none

/-- Read of all records (`VendaService.listar_todas`): forwards a
successful store read and catches `SQLAlchemyError`, returning the empty
list instead of re-raising. -/
def listar_todas (resultado : Except String (List Venda)) :
    Except String (List Venda) :=
  match resultado with
  | .ok vs => .ok vs
  | .error _ => .ok []

/-- Search by name substring (`VendaService.buscar_por_nome`): forwards a
successful store read and catches `SQLAlchemyError`, returning the empty
list instead of re-raising. -/
def buscar_por_nome (resultado : Except String (List Venda)) :
    Except String (List Venda) :=
  match resultado with
  | .ok vs => .ok vs
  | .error _ => .ok []

/-- Guard `nome is not None and (not nome.strip() or len(nome) > 100)`
from `VendaService.atualizar_venda`. -/
def nomeInvalido : Option String → Bool
  | none => false
  | some n => decide (strip n = "") || decide (100 < n.length)

/-- Guard `preco is not None and preco <= 0` from
`VendaService.atualizar_venda`. -/
def precoInvalido : Option ℚ → Bool
  | none => false
  | some p => decide (p ≤ 0)

/-- Guard `quantidade is not None and quantidade <= 0` from
`VendaService.atualizar_venda`. -/
def quantidadeInvalida : Option Int → Bool
  | none => false
  | some q => decide (q ≤ 0)

/-- Validated update (`VendaService.atualizar_venda`): fetch the record,
raise not-found when absent, validate each supplied field, then mutate and
commit. -/
def atualizar_venda (s : Store) (venda_id : Int) (nome : Option String)
    (preco : Option ℚ) (quantidade : Option Int)
    (observacoes : Option String) : Except String Bool × Store :=
  match buscar_venda (.ok (Venda.buscar_por_id s venda_id)) with
  | .error e => (.error e, s)
  | .ok none =>
    (.error ("Venda com ID " ++ toString venda_id ++ " não encontrada"), s)
  | .ok (some venda) =>
    if nomeInvalido nome then
      (.error "Nome do produto deve ter entre 1 e 100 caracteres", s)
    else if precoInvalido preco then
      (.error "Preço deve ser maior que zero", s)
    else if quantidadeInvalida quantidade then
      (.error "Quantidade deve ser maior que zero", s)
    else
      let nova := venda.atualizar (stripOpcional nome) preco quantidade
        (stripOpcional observacoes)
      (.ok true, s.substitui venda_id nova)

end VendaService

/-- Per-record detail entry shared by the revenue and low-cost analyses:
the dict `{id, nome, preco, quantidade, faturamento, data}` built in
`src/services/analise_service.py`. -/
structure ProdutoDetalhe where
  id : Int
  nome : String
  preco : ℚ
  quantidade : Int
  faturamento : ℚ
  data : Nat
deriving DecidableEq

/-- Detail entry of one record. -/
def Venda.detalhe (v : Venda) : ProdutoDetalhe :=
  ⟨v.id, v.nome, v.preco, v.quantidade, v.calcular_faturamento,
    v.data_venda⟩

/-- Result of `AnaliseService.calcular_faturamento_total`. -/
structure Faturamento where
  faturamento_total : ℚ
  itens : List ProdutoDetalhe
  total_itens : Nat
deriving DecidableEq

/-- Result of `AnaliseService.analisar_produtos_baixo_custo`. -/
structure BaixoCusto where
  limite_preco : ℚ
  produtos : List ProdutoDetalhe
  total_produtos : Nat
  faturamento_total : ℚ
deriving DecidableEq

/-- Selected item of `AnaliseService.analisar_vendas_acima_da_media`:
the dict `{id, nome, quantidade, quantidade_media, diferenca,
faturamento, data}`. -/
structure ItemAcimaMedia where
  id : Int
  nome : String
  quantidade : Int
  quantidade_media : ℚ
  diferenca : ℚ
  faturamento : ℚ
  data : Nat
deriving DecidableEq

/-- Result of `AnaliseService.analisar_vendas_acima_da_media`.  The
`total_vendas` key is only present in the non-empty branch of the source,
hence the `Option`. -/
structure AcimaMedia where
  quantidade_media : ℚ
  itens_acima_media : List ItemAcimaMedia
  total_itens_acima_media : Nat
  total_vendas : Option Nat
deriving DecidableEq

/-- Above-average item built from one record at a given mean. -/
def Venda.itemAcima (media : ℚ) (v : Venda) : ItemAcimaMedia :=
  ⟨v.id, v.nome, v.quantidade, media, (v.quantidade : ℚ) - media,
    v.calcular_faturamento, v.data_venda⟩

namespace AnaliseService

/-- Total-revenue analysis (`AnaliseService.calcular_faturamento_total`),
as a pure function of the snapshot list: zero defaults on the empty
snapshot, otherwise the running total and one detail entry per record in
input order. -/
def calcular_faturamento_total (vendas : List Venda) : Faturamento :=
  if vendas = [] then ⟨0, [], 0⟩
  else
    let itens := vendas.map Venda.detalhe
    ⟨(vendas.map Venda.calcular_faturamento).sum, itens, itens.length⟩

/-- Low-cost filter (`AnaliseService.analisar_produtos_baixo_custo`):
records with price strictly below the threshold, in input order, with
their count and summed revenue. -/
def analisar_produtos_baixo_custo (vendas : List Venda)
    (limite_preco : ℚ) : BaixoCusto :=
  let produtos :=
    (vendas.filter (fun v => decide (v.preco < limite_preco))).map
      Venda.detalhe
  ⟨limite_preco, produtos, produtos.length,
    (produtos.map (fun p => p.faturamento)).sum⟩

/-- Above-average detection
(`AnaliseService.analisar_vendas_acima_da_media`): mean quantity over the
snapshot, then the records whose quantity strictly exceeds it. -/
def analisar_vendas_acima_da_media (vendas : List Venda) : AcimaMedia :=
  if vendas = [] then ⟨0, [], 0, none⟩
  else
    let total_quantidade : Int := (vendas.map (fun v => v.quantidade)).sum
    let quantidade_media : ℚ :=
      (total_quantidade : ℚ) / (vendas.length : ℚ)
    let itens :=
      (vendas.filter
        (fun v => decide (quantidade_media < (v.quantidade : ℚ)))).map
        (Venda.itemAcima quantidade_media)
    ⟨quantidade_media, itens, itens.length, some vendas.length⟩

end AnaliseService

/-- Transaction entry stored inside a per-product group: the dict
`{id, preco, quantidade, data}` appended in
`AnaliseService.analisar_vendas_por_produto`. -/
structure TransacaoProduto where
  id : Int
  preco : ℚ
  quantidade : Int
  data : Nat
deriving DecidableEq

/-- Transaction entry of one record. -/
def Venda.transacao (v : Venda) : TransacaoProduto :=
  ⟨v.id, v.preco, v.quantidade, v.data_venda⟩

/-- Aggregate for one product name in
`AnaliseService.analisar_vendas_por_produto`. -/
structure GrupoProduto where
  quantidade_total : Int
  faturamento_total : ℚ
  preco_medio : ℚ
  vendas : List TransacaoProduto
deriving DecidableEq

/-- The defaultdict seed
`{quantidade_total: 0, faturamento_total: 0.0, preco_medio: 0.0,
vendas: []}`. -/
def grupoNovo : GrupoProduto := ⟨0, 0, 0, []⟩

/-- One loop step of the grouping pass: accumulate the record's quantity
and revenue and append its transaction entry. -/
def adicionaVenda (g : GrupoProduto) (v : Venda) : GrupoProduto :=
  { g with
    quantidade_total := g.quantidade_total + v.quantidade
    faturamento_total := g.faturamento_total + v.calcular_faturamento
    vendas := g.vendas ++ [v.transacao] }

/-- Update of the insertion-ordered dict, keyed by the exact name string:
the first entry with the record's name is updated, otherwise a fresh
entry is appended (defaultdict access by `venda.nome`). -/
def insereNoGrupo : List (String × GrupoProduto) → Venda →
    List (String × GrupoProduto)
  | [], v => [(v.nome, adicionaVenda grupoNovo v)]
  | (n, g) :: resto, v =>
    if n = v.nome then (n, adicionaVenda g v) :: resto
    else (n, g) :: insereNoGrupo resto v

/-- First grouping pass of `analisar_vendas_por_produto`: fold of the
snapshot into the insertion-ordered dict. -/
def agrupaPorNome (vendas : List Venda) : List (String × GrupoProduto) :=
  vendas.foldl insereNoGrupo []

/-- Second pass of `analisar_vendas_por_produto`: the mean of the group's
transaction prices, computed only when the group has transactions. -/
def calculaPrecoMedio (g : GrupoProduto) : GrupoProduto :=
  if g.vendas = [] then g
  else
    { g with preco_medio :=
        (g.vendas.map (fun t => t.preco)).sum / (g.vendas.length : ℚ) }

/-- Result of `AnaliseService.analisar_vendas_por_produto`. -/
structure AnalisePorProduto where
  produtos : List (String × GrupoProduto)
  total_produtos : Nat
deriving DecidableEq

/-- Per-product grouping (`AnaliseService.analisar_vendas_por_produto`):
group by the exact case-sensitive name, then fill in each group's average
price. -/
def AnaliseService.analisar_vendas_por_produto (vendas : List Venda) :
    AnalisePorProduto :=
  if vendas = [] then ⟨[], 0⟩
  else
    let agrupados :=
      (agrupaPorNome vendas).map (fun p => (p.1, calculaPrecoMedio p.2))
    ⟨agrupados, agrupados.length⟩

/-- Lookup of a product name in the grouped result (dict access). -/
def buscaGrupo (ps : List (String × GrupoProduto)) (n : String) :
    Option GrupoProduto :=
  (ps.find? (fun p => decide (p.1 = n))).map (fun p => p.2)

/-- Accumulation of a run of records into one group, the restriction of
the grouping loop to a single product's records. -/
def grupoDe (g : GrupoProduto) (l : List Venda) : GrupoProduto :=
  l.foldl adicionaVenda g

/-- Result of `AnaliseService.buscar_tendencias`.  The
`periodo_analisado` key is only present in the main branch of the
source, hence the `Option`. -/
structure Tendencias where
  tendencia_preco : String
  tendencia_quantidade : String
  crescimento_faturamento : ℚ
  periodo_analisado : Option (Nat × Nat)
deriving DecidableEq

/-- Fallback record used to totalise list indexing on the sorted
snapshot; it is never reached when the snapshot has at least two
records. -/
def vendaPadrao : Venda := ⟨0, "", 0, 0, 0, none⟩

/-- Stable ascending sort of the snapshot by timestamp
(`sorted(vendas, key=lambda x: x.data_venda)`). -/
def ordenaPorData (vendas : List Venda) : List Venda :=
  vendas.mergeSort (fun a b => decide (a.data_venda ≤ b.data_venda))

/-- Trend analysis (`AnaliseService.buscar_tendencias`): the
insufficient-data sentinel below two records; otherwise the two-point
comparison of the earliest and latest record of the stably sorted
snapshot, and the revenue-growth percentage guarded by a positive initial
revenue. -/
def AnaliseService.buscar_tendencias (vendas : List Venda) : Tendencias :=
  if vendas.length < 2 then
    ⟨"insuficiente_dados", "insuficiente_dados", 0, none⟩
  else
    let inicial := (ordenaPorData vendas).headD vendaPadrao
    let final := (ordenaPorData vendas).getLastD vendaPadrao
    let tendencia_preco :=
      if inicial.preco < final.preco then "crescente"
      else if final.preco < inicial.preco then "decrescente"
      else "estavel"
    let tendencia_quantidade :=
      if inicial.quantidade < final.quantidade then "crescente"
      else if final.quantidade < inicial.quantidade then "decrescente"
      else "estavel"
    let crescimento :=
      if 0 < inicial.calcular_faturamento then
        ((final.calcular_faturamento - inicial.calcular_faturamento) /
          inicial.calcular_faturamento) * 100
      else 0
    ⟨tendencia_preco, tendencia_quantidade, crescimento,
      some (inicial.data_venda, final.data_venda)⟩

/-- Name of 101 identical letters, exceeding the 100-character limit. -/
def nomeLongo : String := String.mk (List.replicate 101 'a')

lemma strip_vazia : strip "" = "" := rfl

lemma strip_ne_vazia_de_nome {nome : String} (h : strip nome ≠ "") :
    nome ≠ "" := by
  intro hn
  exact h (hn ▸ strip_vazia)

lemma guarda_nome_falsa {nome : String} (h : strip nome ≠ "") :
    ¬(nome = "" ∨ strip nome = "") := by
  rintro (hn | hn)
  · exact h (hn ▸ strip_vazia)
  · exact h hn

/-- C1 counterexample: on a 101-character name together with a
non-positive price, the code raises the price error, not the name-length
error that the claimed validation order (name emptiness, name length,
price, quantity) would produce; the input does violate the length rule
and not the emptiness rule. -/
theorem c1_contraexemplo :
    (VendaService.criar_venda Store.vazio nomeLongo 0 5 none 0).1 =
      .error "Preço deve ser maior que zero" ∧
    "Preço deve ser maior que zero" ≠
      "Nome do produto deve ter no máximo 100 caracteres" ∧
    strip nomeLongo ≠ "" ∧ 100 < (strip nomeLongo).length := by
  refine ⟨rfl, by decide, by decide, by decide⟩

/-- C1 (amended): `criar_venda` validates in the source order — name
non-empty after stripping, then price positive, then quantity positive,
then raw name length at most 100 — the first violated rule determines the
raised error, and the store is unchanged whenever any rule fails. -/
theorem c1_valida_em_ordem (s : Store) (nome : String) (preco : ℚ)
    (quantidade : Int) (observacoes : Option String) (agora : Nat) :
    (strip nome = "" →
      VendaService.criar_venda s nome preco quantidade observacoes agora =
        (.error "Nome do produto é obrigatório", s)) ∧
    (strip nome ≠ "" → preco ≤ 0 →
      VendaService.criar_venda s nome preco quantidade observacoes agora =
        (.error "Preço deve ser maior que zero", s)) ∧
    (strip nome ≠ "" → 0 < preco → quantidade ≤ 0 →
      VendaService.criar_venda s nome preco quantidade observacoes agora =
        (.error "Quantidade deve ser maior que zero", s)) ∧
    (strip nome ≠ "" → 0 < preco → 0 < quantidade → 100 < nome.length →
      VendaService.criar_venda s nome preco quantidade observacoes agora =
        (.error "Nome do produto deve ter no máximo 100 caracteres", s)) ∧
    (∀ e s2,
      VendaService.criar_venda s nome preco quantidade observacoes agora =
        (.error e, s2) → s2 = s) := by
  unfold VendaService.criar_venda
  refine ⟨?_, ?_, ?_, ?_, ?_⟩
  · intro h
    rw [if_pos (Or.inr h)]
  · intro h1 h2
    rw [if_neg (guarda_nome_falsa h1), if_pos h2]
  · intro h1 h2 h3
    rw [if_neg (guarda_nome_falsa h1), if_neg (not_le.mpr h2), if_pos h3]
  · intro h1 h2 h3 h4
    rw [if_neg (guarda_nome_falsa h1), if_neg (not_le.mpr h2),
      if_neg (not_le.mpr h3), if_pos h4]
  · intro e s2
    split
    · intro h
      exact (Prod.mk.injEq _ _ _ _ ▸ h).2.symm
    · split
      · intro h
        exact (Prod.mk.injEq _ _ _ _ ▸ h).2.symm
      · split
        · intro h
          exact (Prod.mk.injEq _ _ _ _ ▸ h).2.symm
        · split
          · intro h
            exact (Prod.mk.injEq _ _ _ _ ▸ h).2.symm
          · intro h
            exact absurd (Prod.mk.injEq _ _ _ _ ▸ h).1 (by simp)

/-- C1 witness: each of the four validation rules observed failing first
on a concrete input, via the amended order theorem. -/
theorem c1_valida_em_ordem_testemunha :
    VendaService.criar_venda Store.vazio "  " 1 1 none 0 =
      (.error "Nome do produto é obrigatório", Store.vazio) ∧
    VendaService.criar_venda Store.vazio "Camisa" 0 1 none 0 =
      (.error "Preço deve ser maior que zero", Store.vazio) ∧
    VendaService.criar_venda Store.vazio "Camisa" 1 0 none 0 =
      (.error "Quantidade deve ser maior que zero", Store.vazio) ∧
    VendaService.criar_venda Store.vazio nomeLongo 1 1 none 0 =
      (.error "Nome do produto deve ter no máximo 100 caracteres",
        Store.vazio) := by
  refine ⟨(c1_valida_em_ordem Store.vazio "  " 1 1 none 0).1 (by decide),
    (c1_valida_em_ordem Store.vazio "Camisa" 0 1 none 0).2.1 (by decide)
      (by decide),
    (c1_valida_em_ordem Store.vazio "Camisa" 1 0 none 0).2.2.1 (by decide)
      (by decide) (by decide),
    (c1_valida_em_ordem Store.vazio nomeLongo 1 1 none 0).2.2.2.1
      (by decide) (by decide) (by decide) (by decide)⟩

/-- C2 counterexample: the input name with surrounding whitespace is valid
under the claim's hypotheses (positive price and quantity, length between
1 and 100), yet the record returned by create-then-get carries the
stripped name, not the name passed to create. -/
theorem c2_contraexemplo :
    (0:ℚ) < 1 ∧ (0:Int) < 1 ∧ 0 < (" a " : String).length ∧
      (" a " : String).length ≤ 100 ∧
    ∃ v, (VendaService.criar_venda Store.vazio " a " 1 1 none 0).1 =
        .ok v ∧
      VendaService.buscar_venda (.ok (Venda.buscar_por_id
          (VendaService.criar_venda Store.vazio " a " 1 1 none 0).2 v.id)) =
        .ok (some v) ∧
      v.nome ≠ " a " := by
  refine ⟨by decide, by decide, by decide, by decide,
    ⟨1, "a", 1, 1, 0, none⟩, rfl, rfl, by decide⟩

/-- C2 (amended): for a store with a fresh next id and inputs with a
non-blank name of raw length at most 100, positive price and positive
quantity, create succeeds and a subsequent get on the returned id yields a
record whose price and quantity equal the passed values and whose name
equals the stripped name. -/
theorem c2_criar_depois_buscar (s : Store) (nome : String) (preco : ℚ)
    (quantidade : Int) (observacoes : Option String) (agora : Nat)
    (hfresco : ∀ w ∈ s.vendas, w.id ≠ s.proximo_id)
    (hnome : strip nome ≠ "") (hlen : nome.length ≤ 100)
    (hpreco : 0 < preco) (hqtd : 0 < quantidade) :
    ∃ v s2,
      VendaService.criar_venda s nome preco quantidade observacoes agora =
        (.ok v, s2) ∧
      VendaService.buscar_venda (.ok (Venda.buscar_por_id s2 v.id)) =
        .ok (some v) ∧
      v.nome = strip nome ∧ v.preco = preco ∧
      v.quantidade = quantidade := by
  unfold VendaService.criar_venda Venda.criarVenda
  rw [if_neg (guarda_nome_falsa hnome), if_neg (not_le.mpr hpreco),
    if_neg (not_le.mpr hqtd), if_neg (not_lt.mpr hlen)]
  refine ⟨_, _, rfl, ?_, rfl, rfl, rfl⟩
  unfold VendaService.buscar_venda Venda.buscar_por_id
  rw [List.find?_append]
  have h1 : s.vendas.find? (fun w => decide (w.id = s.proximo_id)) =
      none :=
    List.find?_eq_none.mpr (fun x hx => by simpa using hfresco x hx)
  rw [h1]
  simp [List.find?]

/-- C2 witness: concrete creation in the empty store, fetched back with
the exact price and quantity and the stripped name. -/
theorem c2_criar_depois_buscar_testemunha :
    (∀ w ∈ Store.vazio.vendas, w.id ≠ Store.vazio.proximo_id) ∧
    strip "Camisa" ≠ "" ∧ ("Camisa" : String).length ≤ 100 ∧
    (0:ℚ) < 2 ∧ (0:Int) < 3 ∧
    ∃ v s2,
      VendaService.criar_venda Store.vazio "Camisa" 2 3 none 7 =
        (.ok v, s2) ∧
      VendaService.buscar_venda (.ok (Venda.buscar_por_id s2 v.id)) =
        .ok (some v) ∧
      v.nome = strip "Camisa" ∧ v.preco = 2 ∧ v.quantidade = 3 := by
  refine ⟨by simp [Store.vazio], by decide, by decide, by decide,
    by decide,
    c2_criar_depois_buscar Store.vazio "Camisa" 2 3 none 7
      (by simp [Store.vazio]) (by decide) (by decide) (by decide)
      (by decide)⟩

/-- C6 counterexample: a storage failure during the single-record read is
swallowed by the manager, which returns the default `None` instead of
re-raising the error. -/
theorem c6_contraexemplo :
    VendaService.buscar_venda (.error "falha de conexão") = .ok none ∧
    VendaService.buscar_venda (.error "falha de conexão") ≠
      .error "falha de conexão" := by
  refine ⟨rfl, fun h => by simp [VendaService.buscar_venda] at h⟩

/-- C6 (amended): when the underlying store raises a storage error during
a manager read, the manager catches it and returns a default value — `None`
for get, the empty list for list-all and search-by-name — instead of
re-raising. -/
theorem c6_leituras_capturam_erro (e : String) :
    VendaService.buscar_venda (.error e) = .ok none ∧
    VendaService.listar_todas (.error e) = .ok [] ∧
    VendaService.buscar_por_nome (.error e) = .ok [] :=
  ⟨rfl, rfl, rfl⟩

/-- C9: updating an id absent from the store raises the not-found error —
regardless of the supplied field values, even invalid ones — and leaves
the store unchanged. -/
theorem c9_atualizar_inexistente (s : Store) (venda_id : Int)
    (nome : Option String) (preco : Option ℚ) (quantidade : Option Int)
    (observacoes : Option String)
    (h : Venda.buscar_por_id s venda_id = none) :
    VendaService.atualizar_venda s venda_id nome preco quantidade
        observacoes =
      (.error ("Venda com ID " ++ toString venda_id ++ " não encontrada"),
        s) := by
  unfold VendaService.atualizar_venda VendaService.buscar_venda
  rw [h]

/-- C9 witness: the not-found error on the empty store, with every
supplied field invalid. -/
theorem c9_atualizar_inexistente_testemunha :
    Venda.buscar_por_id Store.vazio 7 = none ∧
    VendaService.atualizar_venda Store.vazio 7 (some "") (some 0) (some 0)
        (some "x") =
      (.error ("Venda com ID " ++ toString (7:Int) ++ " não encontrada"),
        Store.vazio) :=
  ⟨rfl, c9_atualizar_inexistente Store.vazio 7 (some "") (some 0) (some 0)
    (some "x") rfl⟩

lemma busca_substitui (l : List Venda) (venda_id : Int) (nova : Venda)
    (hid : nova.id = venda_id) :
    (l.map (fun w => if w.id = venda_id then nova else w)).find?
        (fun w => decide (w.id = venda_id)) =
      (l.find? (fun w => decide (w.id = venda_id))).map (fun _ => nova) := by
  induction l with
  | nil => rfl
  | cons w t ih =>
    by_cases hw : w.id = venda_id
    · simp [List.find?_cons, hw, hid]
    · simp [List.find?_cons, hw, ih]

lemma atualizar_venda_encontrada (s : Store) (venda_id : Int) (v : Venda)
    (h : Venda.buscar_por_id s venda_id = some v) (nome : Option String)
    (preco : Option ℚ) (quantidade : Option Int)
    (observacoes : Option String) :
    VendaService.atualizar_venda s venda_id nome preco quantidade
        observacoes =
      if VendaService.nomeInvalido nome then
        (.error "Nome do produto deve ter entre 1 e 100 caracteres", s)
      else if VendaService.precoInvalido preco then
        (.error "Preço deve ser maior que zero", s)
      else if VendaService.quantidadeInvalida quantidade then
        (.error "Quantidade deve ser maior que zero", s)
      else
        (.ok true, s.substitui venda_id
          (v.atualizar (stripOpcional nome) preco quantidade
            (stripOpcional observacoes))) := by
  unfold VendaService.atualizar_venda VendaService.buscar_venda
  rw [h]

lemma busca_apos_substitui (s : Store) (venda_id : Int) (nova : Venda)
    (hid : nova.id = venda_id) :
    Venda.buscar_por_id (s.substitui venda_id nova) venda_id =
      (Venda.buscar_por_id s venda_id).map (fun _ => nova) := by
  unfold Venda.buscar_por_id Store.substitui
  exact busca_substitui s.vendas venda_id nova hid

/-- C10: updating an existing record with notes equal to the empty string
leaves the stored record — its notes included — unchanged, and in any
successful update every field that was not supplied keeps its previous
value. -/
theorem c10_atualizar_preserva_campos (s : Store) (venda_id : Int)
    (v : Venda) (h : Venda.buscar_por_id s venda_id = some v) :
    (VendaService.atualizar_venda s venda_id none none none (some "") =
        (.ok true, s.substitui venda_id v) ∧
      Venda.buscar_por_id (s.substitui venda_id v) venda_id = some v) ∧
    (∀ nome preco quantidade observacoes b s2,
      VendaService.atualizar_venda s venda_id nome preco quantidade
          observacoes = (.ok b, s2) →
      ∃ v2, Venda.buscar_por_id s2 venda_id = some v2 ∧
        (nome = none → v2.nome = v.nome) ∧
        (preco = none → v2.preco = v.preco) ∧
        (quantidade = none → v2.quantidade = v.quantidade) ∧
        ((observacoes = none ∨ observacoes = some "") →
          v2.observacoes = v.observacoes)) := by
  have hfind : s.vendas.find? (fun w => decide (w.id = venda_id)) =
      some v := h
  have hid : v.id = venda_id := by
    have := List.find?_some hfind
    simpa using this
  have hv : v.atualizar (stripOpcional none) none none
      (stripOpcional (some "")) = v := by
    simp [Venda.atualizar, stripOpcional]
  constructor
  · constructor
    · rw [atualizar_venda_encontrada s venda_id v h]
      simp [VendaService.nomeInvalido, VendaService.precoInvalido,
        VendaService.quantidadeInvalida, hv]
    · rw [busca_apos_substitui s venda_id v hid, h]
      rfl
  · intro nome preco quantidade observacoes b s2 heq
    rw [atualizar_venda_encontrada s venda_id v h] at heq
    by_cases h1 : VendaService.nomeInvalido nome
    · rw [if_pos h1] at heq
      exact absurd (Prod.mk.injEq _ _ _ _ ▸ heq).1 (by simp)
    rw [if_neg h1] at heq
    by_cases h2 : VendaService.precoInvalido preco
    · rw [if_pos h2] at heq
      exact absurd (Prod.mk.injEq _ _ _ _ ▸ heq).1 (by simp)
    rw [if_neg h2] at heq
    by_cases h3 : VendaService.quantidadeInvalida quantidade
    · rw [if_pos h3] at heq
      exact absurd (Prod.mk.injEq _ _ _ _ ▸ heq).1 (by simp)
    rw [if_neg h3] at heq
    have hs2 : s2 = s.substitui venda_id
        (v.atualizar (stripOpcional nome) preco quantidade
          (stripOpcional observacoes)) :=
      ((Prod.mk.injEq _ _ _ _ ▸ heq).2).symm
    refine ⟨v.atualizar (stripOpcional nome) preco quantidade
      (stripOpcional observacoes), ?_, ?_, ?_, ?_, ?_⟩
    · subst hs2
      have hid2 : (v.atualizar (stripOpcional nome) preco quantidade
          (stripOpcional observacoes)).id = venda_id := hid
      rw [busca_apos_substitui s venda_id _ hid2, h]
      rfl
    · rintro rfl
      simp [Venda.atualizar, stripOpcional]
    · rintro rfl
      simp [Venda.atualizar]
    · rintro rfl
      simp [Venda.atualizar]
    · rintro (rfl | rfl) <;> simp [Venda.atualizar, stripOpcional]

/-- C10 witness: a one-record store where an empty-notes update returns
success and the fetched record is unchanged. -/
theorem c10_atualizar_preserva_campos_testemunha :
    Venda.buscar_por_id (⟨[⟨1, "Camisa", 2, 3, 5, some "nota"⟩], 2⟩ :
        Store) 1 = some ⟨1, "Camisa", 2, 3, 5, some "nota"⟩ ∧
    (VendaService.atualizar_venda
        (⟨[⟨1, "Camisa", 2, 3, 5, some "nota"⟩], 2⟩ : Store) 1 none none
        none (some "") =
      (.ok true, (⟨[⟨1, "Camisa", 2, 3, 5, some "nota"⟩], 2⟩ :
        Store).substitui 1 ⟨1, "Camisa", 2, 3, 5, some "nota"⟩) ∧
      Venda.buscar_por_id ((⟨[⟨1, "Camisa", 2, 3, 5, some "nota"⟩],
          2⟩ : Store).substitui 1 ⟨1, "Camisa", 2, 3, 5, some "nota"⟩) 1 =
        some ⟨1, "Camisa", 2, 3, 5, some "nota"⟩) :=
  ⟨rfl, (c10_atualizar_preserva_campos
    (⟨[⟨1, "Camisa", 2, 3, 5, some "nota"⟩], 2⟩ : Store) 1
    ⟨1, "Camisa", 2, 3, 5, some "nota"⟩ rfl).1⟩

/-- C7: the low-cost filter selects exactly the records whose price is
strictly below the threshold, in snapshot order; its count is the number
of selected records and its total revenue sums price times quantity over
the selected records only. -/
theorem c7_baixo_custo (vendas : List Venda) (limite : ℚ) :
    (AnaliseService.analisar_produtos_baixo_custo vendas limite).produtos =
      (vendas.filter (fun v => decide (v.preco < limite))).map
        Venda.detalhe ∧
    (∀ d, d ∈ (AnaliseService.analisar_produtos_baixo_custo vendas
          limite).produtos ↔
      ∃ v ∈ vendas, v.preco < limite ∧ d = v.detalhe) ∧
    (AnaliseService.analisar_produtos_baixo_custo vendas
        limite).total_produtos =
      vendas.countP (fun v => decide (v.preco < limite)) ∧
    (AnaliseService.analisar_produtos_baixo_custo vendas
        limite).faturamento_total =
      ((vendas.filter (fun v => decide (v.preco < limite))).map
        (fun v => v.preco * (v.quantidade : ℚ))).sum := by
  refine ⟨rfl, ?_, ?_, ?_⟩
  · intro d
    simp only [AnaliseService.analisar_produtos_baixo_custo,
      List.mem_map, List.mem_filter, decide_eq_true_eq]
    constructor
    · rintro ⟨v, ⟨hv, hp⟩, rfl⟩
      exact ⟨v, hv, hp, rfl⟩
    · rintro ⟨v, hv, hp, rfl⟩
      exact ⟨v, ⟨hv, hp⟩, rfl⟩
  · simp [AnaliseService.analisar_produtos_baixo_custo,
      List.countP_eq_length_filter]
  · simp only [AnaliseService.analisar_produtos_baixo_custo,
      List.map_map]
    rfl

/-- C8: the total revenue equals the sum of price times quantity over all
records, it is invariant under any permutation of the snapshot, and the
empty snapshot yields total zero with an empty item list. -/
theorem c8_faturamento_total (vendas outra : List Venda)
    (hperm : vendas.Perm outra) :
    (AnaliseService.calcular_faturamento_total vendas).faturamento_total =
      (vendas.map (fun v => v.preco * (v.quantidade : ℚ))).sum ∧
    (AnaliseService.calcular_faturamento_total vendas).faturamento_total =
      (AnaliseService.calcular_faturamento_total
        outra).faturamento_total ∧
    AnaliseService.calcular_faturamento_total [] = ⟨0, [], 0⟩ := by
  have chave : ∀ l : List Venda,
      (AnaliseService.calcular_faturamento_total l).faturamento_total =
        (l.map (fun v => v.preco * (v.quantidade : ℚ))).sum := by
    intro l
    unfold AnaliseService.calcular_faturamento_total
    by_cases h : l = []
    · subst h
      simp
    · rw [if_neg h]
      rfl
  refine ⟨chave vendas, ?_, rfl⟩
  rw [chave vendas, chave outra]
  exact (hperm.map _).sum_eq

/-- C8 witness: a concrete two-record snapshot and its transposition give
the same total. -/
theorem c8_faturamento_total_testemunha :
    ([⟨1, "A", 2, 3, 0, none⟩, ⟨2, "B", 5, 1, 1, none⟩] :
        List Venda).Perm
      [⟨2, "B", 5, 1, 1, none⟩, ⟨1, "A", 2, 3, 0, none⟩] ∧
    ((AnaliseService.calcular_faturamento_total
        [⟨1, "A", 2, 3, 0, none⟩,
          ⟨2, "B", 5, 1, 1, none⟩]).faturamento_total =
      (([⟨1, "A", 2, 3, 0, none⟩, ⟨2, "B", 5, 1, 1, none⟩] :
        List Venda).map (fun v => v.preco * (v.quantidade : ℚ))).sum ∧
    (AnaliseService.calcular_faturamento_total
        [⟨1, "A", 2, 3, 0, none⟩,
          ⟨2, "B", 5, 1, 1, none⟩]).faturamento_total =
      (AnaliseService.calcular_faturamento_total
        [⟨2, "B", 5, 1, 1, none⟩,
          ⟨1, "A", 2, 3, 0, none⟩]).faturamento_total ∧
    AnaliseService.calcular_faturamento_total [] = ⟨0, [], 0⟩) :=
  ⟨List.Perm.swap _ _ _,
    c8_faturamento_total _ _ (List.Perm.swap _ _ _)⟩

/-- C5 counterexample: on the empty snapshot the result has no
`total_vendas` entry at all (the source's empty-input dict omits the
key), so it does not equal the input size. -/
theorem c5_contraexemplo :
    (AnaliseService.analisar_vendas_acima_da_media []).total_vendas ≠
      some ([] : List Venda).length := by
  decide

/-- C5 (amended): on a non-empty snapshot the average quantity is the
quantity sum divided by the record count, the selected items are exactly
the records whose quantity strictly exceeds that average, their count is
reported, and `total_vendas` equals the snapshot size; the empty snapshot
yields average zero, no items, and omits the `total_vendas` entry. -/
theorem c5_acima_da_media (vendas : List Venda) (hne : vendas ≠ []) :
    (AnaliseService.analisar_vendas_acima_da_media
        vendas).quantidade_media =
      (((vendas.map (fun v => v.quantidade)).sum : Int) : ℚ) /
        (vendas.length : ℚ) ∧
    (∀ it, it ∈ (AnaliseService.analisar_vendas_acima_da_media
          vendas).itens_acima_media ↔
      ∃ v ∈ vendas,
        (AnaliseService.analisar_vendas_acima_da_media
          vendas).quantidade_media < (v.quantidade : ℚ) ∧
        it = Venda.itemAcima
          ((AnaliseService.analisar_vendas_acima_da_media
            vendas).quantidade_media) v) ∧
    (AnaliseService.analisar_vendas_acima_da_media
        vendas).total_itens_acima_media =
      vendas.countP (fun v =>
        decide ((AnaliseService.analisar_vendas_acima_da_media
          vendas).quantidade_media < (v.quantidade : ℚ))) ∧
    (AnaliseService.analisar_vendas_acima_da_media vendas).total_vendas =
      some vendas.length ∧
    AnaliseService.analisar_vendas_acima_da_media [] = ⟨0, [], 0, none⟩ := by
  unfold AnaliseService.analisar_vendas_acima_da_media
  rw [if_neg hne]
  refine ⟨rfl, ?_, ?_, rfl, rfl⟩
  · intro it
    simp only [List.mem_map, List.mem_filter, decide_eq_true_eq]
    constructor
    · rintro ⟨v, ⟨hv, hq⟩, rfl⟩
      exact ⟨v, hv, hq, rfl⟩
    · rintro ⟨v, hv, hq, rfl⟩
      exact ⟨v, ⟨hv, hq⟩, rfl⟩
  · simp [List.countP_eq_length_filter]

/-- C5 witness: a concrete singleton snapshot where the record sits
exactly at the mean and is therefore excluded. -/
theorem c5_acima_da_media_testemunha :
    ([⟨1, "A", 2, 3, 0, none⟩] : List Venda) ≠ [] ∧
    ((AnaliseService.analisar_vendas_acima_da_media
        [⟨1, "A", 2, 3, 0, none⟩]).quantidade_media =
      ((([⟨1, "A", 2, 3, 0, none⟩] : List Venda).map
          (fun v => v.quantidade)).sum : Int) /
        (([⟨1, "A", 2, 3, 0, none⟩] : List Venda).length : ℚ) ∧
    (∀ it, it ∈ (AnaliseService.analisar_vendas_acima_da_media
          [⟨1, "A", 2, 3, 0, none⟩]).itens_acima_media ↔
      ∃ v ∈ ([⟨1, "A", 2, 3, 0, none⟩] : List Venda),
        (AnaliseService.analisar_vendas_acima_da_media
          [⟨1, "A", 2, 3, 0, none⟩]).quantidade_media <
            (v.quantidade : ℚ) ∧
        it = Venda.itemAcima
          ((AnaliseService.analisar_vendas_acima_da_media
            [⟨1, "A", 2, 3, 0, none⟩]).quantidade_media) v) ∧
    (AnaliseService.analisar_vendas_acima_da_media
        [⟨1, "A", 2, 3, 0, none⟩]).total_itens_acima_media =
      ([⟨1, "A", 2, 3, 0, none⟩] : List Venda).countP (fun v =>
        decide ((AnaliseService.analisar_vendas_acima_da_media
          [⟨1, "A", 2, 3, 0, none⟩]).quantidade_media <
            (v.quantidade : ℚ))) ∧
    (AnaliseService.analisar_vendas_acima_da_media
        [⟨1, "A", 2, 3, 0, none⟩]).total_vendas =
      some ([⟨1, "A", 2, 3, 0, none⟩] : List Venda).length ∧
    AnaliseService.analisar_vendas_acima_da_media [] =
      ⟨0, [], 0, none⟩) :=
  ⟨by decide, c5_acima_da_media [⟨1, "A", 2, 3, 0, none⟩] (by decide)⟩

lemma buscaGrupo_cons (m : String) (g : GrupoProduto)
    (resto : List (String × GrupoProduto)) (n : String) :
    buscaGrupo ((m, g) :: resto) n =
      if m = n then some g else buscaGrupo resto n := by
  by_cases h : m = n <;> simp [buscaGrupo, List.find?_cons, h]

lemma busca_insere (acc : List (String × GrupoProduto)) (v : Venda)
    (n : String) :
    buscaGrupo (insereNoGrupo acc v) n =
      if v.nome = n then
        some (adicionaVenda ((buscaGrupo acc n).getD grupoNovo) v)
      else buscaGrupo acc n := by
  induction acc with
  | nil =>
    by_cases h : v.nome = n <;>
      simp [insereNoGrupo, buscaGrupo_cons, buscaGrupo, h]
  | cons p resto ih =>
    obtain ⟨m, g⟩ := p
    rw [insereNoGrupo]
    by_cases hm : m = v.nome
    · rw [if_pos hm, buscaGrupo_cons, buscaGrupo_cons]
      by_cases hn : m = n
      · have h2 : v.nome = n := hm ▸ hn
        rw [if_pos hn, if_pos h2, if_pos hn]
        rfl
      · have h2 : ¬ v.nome = n := fun h => hn (hm.trans h)
        rw [if_neg hn, if_neg h2, if_neg hn]
    · rw [if_neg hm, buscaGrupo_cons, buscaGrupo_cons]
      by_cases hn : m = n
      · have h2 : ¬ v.nome = n := fun h => hm (hn.trans h.symm)
        rw [if_pos hn, if_neg h2, if_pos hn]
      · rw [if_neg hn, if_neg hn]
        exact ih

lemma grupoDe_spec (l : List Venda) (g : GrupoProduto) :
    grupoDe g l =
      ⟨g.quantidade_total + (l.map (fun v => v.quantidade)).sum,
        g.faturamento_total +
          (l.map (fun v => v.preco * (v.quantidade : ℚ))).sum,
        g.preco_medio,
        g.vendas ++ l.map Venda.transacao⟩ := by
  induction l generalizing g with
  | nil => simp [grupoDe]
  | cons v t ih =>
    show grupoDe (adicionaVenda g v) t = _
    rw [ih]
    simp [adicionaVenda, Venda.calcular_faturamento, add_assoc]

lemma busca_foldl (l : List Venda) (acc : List (String × GrupoProduto))
    (n : String) :
    buscaGrupo (l.foldl insereNoGrupo acc) n =
      if l.filter (fun v => decide (v.nome = n)) = [] then buscaGrupo acc n
      else some (grupoDe ((buscaGrupo acc n).getD grupoNovo)
        (l.filter (fun v => decide (v.nome = n)))) := by
  induction l generalizing acc with
  | nil => simp
  | cons v t ih =>
    rw [List.foldl_cons, ih]
    by_cases hv : v.nome = n
    · have hf : (v :: t).filter (fun w => decide (w.nome = n)) =
          v :: t.filter (fun w => decide (w.nome = n)) := by
        simp [List.filter_cons, hv]
      rw [hf, busca_insere, if_pos hv]
      by_cases ht : t.filter (fun w => decide (w.nome = n)) = []
      · rw [if_pos ht, ht, if_neg (List.cons_ne_nil v [])]
        rfl
      · rw [if_neg ht, if_neg (List.cons_ne_nil v
          (t.filter (fun w => decide (w.nome = n))))]
        rfl
    · have hf : (v :: t).filter (fun w => decide (w.nome = n)) =
          t.filter (fun w => decide (w.nome = n)) := by
        simp [List.filter_cons, hv]
      rw [hf, busca_insere, if_neg hv]

lemma busca_agrupa (l : List Venda) (n : String) :
    buscaGrupo (agrupaPorNome l) n =
      if l.filter (fun v => decide (v.nome = n)) = [] then none
      else some (grupoDe grupoNovo
        (l.filter (fun v => decide (v.nome = n)))) := by
  rw [agrupaPorNome, busca_foldl]
  rfl

lemma busca_mapa_medio (ps : List (String × GrupoProduto)) (n : String) :
    buscaGrupo (ps.map (fun p => (p.1, calculaPrecoMedio p.2))) n =
      (buscaGrupo ps n).map calculaPrecoMedio := by
  induction ps with
  | nil => rfl
  | cons p resto ih =>
    obtain ⟨m, g⟩ := p
    rw [List.map_cons, buscaGrupo_cons, buscaGrupo_cons]
    by_cases h : m = n
    · rw [if_pos h, if_pos h]
      rfl
    · rw [if_neg h, if_neg h, ih]

lemma busca_analise (l : List Venda) (n : String) :
    buscaGrupo (AnaliseService.analisar_vendas_por_produto l).produtos n =
      if l.filter (fun v => decide (v.nome = n)) = [] then none
      else some (calculaPrecoMedio (grupoDe grupoNovo
        (l.filter (fun v => decide (v.nome = n))))) := by
  unfold AnaliseService.analisar_vendas_por_produto
  by_cases h : l = []
  · subst h
    simp [agrupaPorNome, buscaGrupo]
  · rw [if_neg h]
    show buscaGrupo ((agrupaPorNome l).map
      (fun p => (p.1, calculaPrecoMedio p.2))) n = _
    rw [busca_mapa_medio, busca_agrupa]
    by_cases hf : l.filter (fun v => decide (v.nome = n)) = []
    · rw [if_pos hf, if_pos hf]
      rfl
    · rw [if_neg hf, if_neg hf]
      rfl

lemma medio_conserva_totais (g : GrupoProduto) :
    (calculaPrecoMedio g).quantidade_total = g.quantidade_total ∧
    (calculaPrecoMedio g).faturamento_total = g.faturamento_total := by
  unfold calculaPrecoMedio
  split <;> exact ⟨rfl, rfl⟩

/-- C4: per-product grouping keys on the exact case-sensitive name — each
group's transactions are exactly the snapshot's records with that literal
name, in order — each group's total quantity and total revenue are
invariant under any permutation of the snapshot, and its average price is
the unweighted mean of the group's unit prices. -/
theorem c4_agrupa_por_produto (l l2 : List Venda) (hperm : l.Perm l2)
    (n : String) :
    (∀ g, buscaGrupo
        (AnaliseService.analisar_vendas_por_produto l).produtos n =
          some g →
      g.vendas = (l.filter (fun v => decide (v.nome = n))).map
        Venda.transacao ∧
      g.quantidade_total = ((l.filter (fun v => decide (v.nome = n))).map
        (fun v => v.quantidade)).sum ∧
      g.faturamento_total = ((l.filter (fun v => decide (v.nome = n))).map
        (fun v => v.preco * (v.quantidade : ℚ))).sum ∧
      g.preco_medio = ((l.filter (fun v => decide (v.nome = n))).map
          (fun v => v.preco)).sum /
        ((l.filter (fun v => decide (v.nome = n))).length : ℚ)) ∧
    (buscaGrupo (AnaliseService.analisar_vendas_por_produto l).produtos
        n).map (fun g => (g.quantidade_total, g.faturamento_total)) =
      (buscaGrupo (AnaliseService.analisar_vendas_por_produto l2).produtos
        n).map (fun g => (g.quantidade_total, g.faturamento_total)) := by
  constructor
  · intro g hg
    rw [busca_analise] at hg
    by_cases hf : l.filter (fun v => decide (v.nome = n)) = []
    · rw [if_pos hf] at hg
      exact absurd hg (by simp)
    · rw [if_neg hf] at hg
      have hg2 := Option.some.injEq .. ▸ hg
      rw [grupoDe_spec] at hg2
      have hne : (l.filter (fun v => decide (v.nome = n))).map
          Venda.transacao ≠ [] := by
        simpa using hf
      rw [calculaPrecoMedio] at hg2
      rw [if_neg (by simpa [grupoNovo] using hne)] at hg2
      subst hg2
      refine ⟨rfl, by simp [grupoNovo], by simp [grupoNovo], ?_⟩
      simp [grupoNovo, List.map_map]
      rfl
  · rw [busca_analise, busca_analise]
    have hfp : (l.filter (fun v => decide (v.nome = n))).Perm
        (l2.filter (fun v => decide (v.nome = n))) :=
      hperm.filter _
    by_cases hf : l.filter (fun v => decide (v.nome = n)) = []
    · rw [if_pos hf, if_pos (by rw [hf] at hfp; exact hfp.symm.eq_nil)]
    · have hf2 : ¬ l2.filter (fun v => decide (v.nome = n)) = [] := by
        intro h2
        rw [h2] at hfp
        exact hf hfp.eq_nil
      rw [if_neg hf, if_neg hf2]
      simp only [Option.map_some']
      have e1 := medio_conserva_totais
        (grupoDe grupoNovo (l.filter (fun v => decide (v.nome = n))))
      have e2 := medio_conserva_totais
        (grupoDe grupoNovo (l2.filter (fun v => decide (v.nome = n))))
      simp only [Option.some.injEq, Prod.mk.injEq, e1.1, e1.2, e2.1, e2.2]
      rw [grupoDe_spec, grupoDe_spec]
      constructor
      · simpa using (hfp.map (fun v => v.quantidade)).sum_eq
      · simpa using
          (hfp.map (fun v => v.preco * (v.quantidade : ℚ))).sum_eq

/-- C4 witness: two same-named records and their transposition produce a
group with identical totals, and the group data matches the filtered
snapshot. -/
theorem c4_agrupa_por_produto_testemunha :
    ([⟨1, "A", 2, 3, 0, none⟩, ⟨2, "A", 4, 1, 1, none⟩] :
        List Venda).Perm
      [⟨2, "A", 4, 1, 1, none⟩, ⟨1, "A", 2, 3, 0, none⟩] ∧
    ((∀ g, buscaGrupo (AnaliseService.analisar_vendas_por_produto
          [⟨1, "A", 2, 3, 0, none⟩, ⟨2, "A", 4, 1, 1, none⟩]).produtos
          "A" = some g →
      g.vendas = (([⟨1, "A", 2, 3, 0, none⟩, ⟨2, "A", 4, 1, 1, none⟩] :
          List Venda).filter (fun v => decide (v.nome = "A"))).map
        Venda.transacao ∧
      g.quantidade_total =
        ((([⟨1, "A", 2, 3, 0, none⟩, ⟨2, "A", 4, 1, 1, none⟩] :
          List Venda).filter (fun v => decide (v.nome = "A"))).map
          (fun v => v.quantidade)).sum ∧
      g.faturamento_total =
        ((([⟨1, "A", 2, 3, 0, none⟩, ⟨2, "A", 4, 1, 1, none⟩] :
          List Venda).filter (fun v => decide (v.nome = "A"))).map
          (fun v => v.preco * (v.quantidade : ℚ))).sum ∧
      g.preco_medio =
        ((([⟨1, "A", 2, 3, 0, none⟩, ⟨2, "A", 4, 1, 1, none⟩] :
            List Venda).filter (fun v => decide (v.nome = "A"))).map
            (fun v => v.preco)).sum /
          ((([⟨1, "A", 2, 3, 0, none⟩, ⟨2, "A", 4, 1, 1, none⟩] :
            List Venda).filter
            (fun v => decide (v.nome = "A"))).length : ℚ)) ∧
    (buscaGrupo (AnaliseService.analisar_vendas_por_produto
        [⟨1, "A", 2, 3, 0, none⟩, ⟨2, "A", 4, 1, 1, none⟩]).produtos
        "A").map (fun g => (g.quantidade_total, g.faturamento_total)) =
      (buscaGrupo (AnaliseService.analisar_vendas_por_produto
        [⟨2, "A", 4, 1, 1, none⟩, ⟨1, "A", 2, 3, 0, none⟩]).produtos
        "A").map (fun g => (g.quantidade_total, g.faturamento_total))) :=
  ⟨List.Perm.swap _ _ _,
    c4_agrupa_por_produto _ _ (List.Perm.swap _ _ _) "A"⟩

lemma ordena_trans (a b c : Venda)
    (hab : decide (a.data_venda ≤ b.data_venda) = true)
    (hbc : decide (b.data_venda ≤ c.data_venda) = true) :
    decide (a.data_venda ≤ c.data_venda) = true := by
  simp only [decide_eq_true_eq] at hab hbc ⊢
  exact hab.trans hbc

lemma ordena_total (a b : Venda) :
    (decide (a.data_venda ≤ b.data_venda) ||
      decide (b.data_venda ≤ a.data_venda)) = true := by
  simpa using Nat.le_total a.data_venda b.data_venda

lemma ordena_perm (vendas : List Venda) :
    (ordenaPorData vendas).Perm vendas :=
  List.mergeSort_perm vendas _

lemma ordena_ordenada (vendas : List Venda) :
    (ordenaPorData vendas).Pairwise
      (fun a b => a.data_venda ≤ b.data_venda) := by
  have h := List.sorted_mergeSort ordena_trans ordena_total vendas
  exact h.imp (fun hab => by simpa using hab)

lemma ordena_estavel (vendas : List Venda) (t : Nat) :
    (ordenaPorData vendas).filter (fun v => decide (v.data_venda = t)) =
      vendas.filter (fun v => decide (v.data_venda = t)) := by
  have hpar : (vendas.filter
      (fun v => decide (v.data_venda = t))).Pairwise
      (fun a b => decide (a.data_venda ≤ b.data_venda) = true) := by
    apply List.pairwise_of_forall_mem_list
    intro a ha b hb
    have ha2 : a.data_venda = t := by
      simpa using (List.mem_filter.mp ha).2
    have hb2 : b.data_venda = t := by
      simpa using (List.mem_filter.mp hb).2
    simp [ha2, hb2]
  have h1 : List.Sublist
      (vendas.filter (fun v => decide (v.data_venda = t)))
      (ordenaPorData vendas) :=
    List.sublist_mergeSort ordena_trans ordena_total hpar
      (List.filter_sublist vendas)
  have h2 : List.Sublist
      (vendas.filter (fun v => decide (v.data_venda = t)))
      ((ordenaPorData vendas).filter
        (fun v => decide (v.data_venda = t))) := by
    have := h1.filter (fun v => decide (v.data_venda = t))
    simpa [List.filter_filter] using this
  have h3 : ((ordenaPorData vendas).filter
      (fun v => decide (v.data_venda = t))).length =
      (vendas.filter (fun v => decide (v.data_venda = t))).length :=
    ((ordena_perm vendas).filter _).length_eq
  exact (h2.eq_of_length h3.symm).symm

/-- C3: with fewer than two records the trend analysis returns the
insufficient-data sentinel for both trend fields and zero growth; with at
least two records the snapshot is stably sorted ascending by timestamp (a
permutation, sorted, preserving the relative order of equal timestamps),
the price and quantity trends compare the earliest against the latest
record of that sorted list, and the revenue growth is the percentage
formula guarded by a positive initial revenue. -/
theorem c3_tendencias (vendas : List Venda) :
    (vendas.length < 2 →
      AnaliseService.buscar_tendencias vendas =
        ⟨"insuficiente_dados", "insuficiente_dados", 0, none⟩) ∧
    (2 ≤ vendas.length →
      (ordenaPorData vendas).Perm vendas ∧
      (ordenaPorData vendas).Pairwise
        (fun a b => a.data_venda ≤ b.data_venda) ∧
      (∀ t, (ordenaPorData vendas).filter
          (fun v => decide (v.data_venda = t)) =
        vendas.filter (fun v => decide (v.data_venda = t))) ∧
      (∀ v0 vn, (ordenaPorData vendas).head? = some v0 →
        (ordenaPorData vendas).getLast? = some vn →
        AnaliseService.buscar_tendencias vendas =
          ⟨if v0.preco < vn.preco then "crescente"
            else if vn.preco < v0.preco then "decrescente"
            else "estavel",
          if v0.quantidade < vn.quantidade then "crescente"
            else if vn.quantidade < v0.quantidade then "decrescente"
            else "estavel",
          if 0 < v0.preco * (v0.quantidade : ℚ) then
            ((vn.preco * (vn.quantidade : ℚ) -
              v0.preco * (v0.quantidade : ℚ)) /
              (v0.preco * (v0.quantidade : ℚ))) * 100
          else 0,
          some (v0.data_venda, vn.data_venda)⟩)) := by
  constructor
  · intro h
    unfold AnaliseService.buscar_tendencias
    rw [if_pos h]
  · intro h
    refine ⟨ordena_perm vendas, ordena_ordenada vendas,
      ordena_estavel vendas, ?_⟩
    intro v0 vn h0 hn
    have e0 : (ordenaPorData vendas).headD vendaPadrao = v0 := by
      rw [List.headD_eq_head?_getD, h0]
      rfl
    have en : (ordenaPorData vendas).getLastD vendaPadrao = vn := by
      rw [List.getLastD_eq_getLast?, hn]
      rfl
    unfold AnaliseService.buscar_tendencias
    rw [if_neg (not_lt.mpr h)]
    simp only [e0, en, Venda.calcular_faturamento]

/-- C3 witness: a concrete already-sorted two-record snapshot whose trend
is increasing price, decreasing quantity and zero revenue growth. -/
theorem c3_tendencias_testemunha :
    2 ≤ ([⟨1, "A", 2, 2, 0, none⟩, ⟨2, "B", 4, 1, 1, none⟩] :
      List Venda).length ∧
    AnaliseService.buscar_tendencias
        [⟨1, "A", 2, 2, 0, none⟩, ⟨2, "B", 4, 1, 1, none⟩] =
      ⟨"crescente", "decrescente", 0, some (0, 1)⟩ := by
  have hs : ordenaPorData
      [⟨1, "A", 2, 2, 0, none⟩, ⟨2, "B", 4, 1, 1, none⟩] =
      [⟨1, "A", 2, 2, 0, none⟩, ⟨2, "B", 4, 1, 1, none⟩] :=
    List.mergeSort_of_sorted (by decide)
  have happ := ((c3_tendencias
      [⟨1, "A", 2, 2, 0, none⟩, ⟨2, "B", 4, 1, 1, none⟩]).2
      (by decide)).2.2.2 ⟨1, "A", 2, 2, 0, none⟩ ⟨2, "B", 4, 1, 1, none⟩
      (by rw [hs]; rfl) (by rw [hs]; rfl)
  refine ⟨by decide, ?_⟩
  rw [happ]
  norm_num

end GestorVendas
